import Mathlib

/-!
Shallow embedding of the webtask workflow compiler
(`src/compilers/workflow.js`) and proofs about the claims of its
specification.  JavaScript values that flow through the compiler are
modelled with a JSON-like inductive type; the asynchronous downstream
HTTP calls are modelled by an environment oracle indexed by call order;
the external libraries (Joi, Boom, Wreck, Async, `JSON.parse`) are
modelled by their documented behaviour at exactly the call sites the
source uses.
-/

namespace WebtaskWorkflow

/-- Models a JavaScript/JSON value as produced by `JSON.parse` or built by
the workflow compiler. -/
inductive JVal where
  | null
  | bool (b : Bool)
  | num (n : Int)
  | str (s : String)
  | arr (elems : List JVal)
  | obj (fields : List (String × JVal))
deriving Repr

/-- Header maps (and query maps) are association lists with unique keys,
mirroring plain JavaScript objects. -/
abbrev Headers := List (String × String)

/-- Models property read `o[k]` on a JavaScript object with string values. -/
def hget (hs : Headers) (k : String) : Option String :=
  (hs.find? (fun kv => kv.1 == k)).map (fun kv => kv.2)

def keysOf (hs : Headers) : List String :=
  hs.map (fun kv => kv.1)

/-- Models `Object.assign({}, base, extra)`: keys of `extra` win on
conflict (overwritten in place), fresh keys of `extra` are appended. -/
def objAssign (base extra : Headers) : Headers :=
  base.map (fun kv =>
    match extra.find? (fun kv2 => kv2.1 == kv.1) with
    | some kv2 => (kv.1, kv2.2)
    | none => kv) ++
  extra.filter (fun kv2 => !((keysOf base).contains kv2.1))

/-- The eight header names deleted by `getNormalizedHeaders`
(workflow.js lines 399-406). -/
def strippedHeaderNames : List String :=
  ["accept-version", "connection", "content-length", "host",
   "x-forwarded-for", "x-forwarded-port", "x-forwarded-proto",
   "x-wt-params"]

/-- Embeds `getNormalizedHeaders` (workflow.js lines 396-409): copy the
header object and `delete` the eight listed keys; `delete` matches the
exact (lowercase) key strings. -/
def getNormalizedHeaders (hs : Headers) : Headers :=
  hs.filter (fun kv => !(strippedHeaderNames.contains kv.1))

/-- The `req.x_wt` addressing metadata consumed by `createWreck`. -/
structure XWt where
  urlFormat : Nat
  container : String
deriving Repr, DecidableEq

/-- The inbound HTTP request as consumed by the executors: method,
headers, parsed query, addressing metadata and the body stream content. -/
structure Request where
  method : String
  headers : Headers
  query : List (String × String)
  xwt : XWt
  body : String
deriving Repr, DecidableEq

def DEFAULT_TIMEOUT : Nat := 10000

def USE_WILDCARD_DOMAIN : Nat := 3

def USE_CUSTOM_DOMAIN : Nat := 2

def USE_SHARED_DOMAIN : Nat := 1

/-- The Wreck client configuration produced by `createWreck`. -/
structure WreckConfig where
  baseUrl : String
  timeout : Nat
deriving Repr, DecidableEq

/-- One node of a workflow definition.  The executors read the optional
`method` and `query` properties (workflow.js lines 168-170, 275-276)
even though the Joi schema never lets them through validation. -/
structure WorkflowNode where
  name : String
  method : Option String
  query : List (String × String)
deriving Repr, DecidableEq

/-- A workflow definition as consumed by the executors: `type`, the node
list, and the optional `timeout` read by `createWreck` (line 392). -/
structure WorkflowDef where
  type : String
  nodes : List WorkflowNode
  timeout : Option Nat
deriving Repr, DecidableEq

/-- Embeds `createWreck` (workflow.js lines 369-394).  The proto falls
back to "https" when the `x-forwarded-proto` header is absent or empty
(JS truthiness); an unrecognized `url_format` is a thrown
`Error: Unexpected url format`; `schema.timeout || DEFAULT_TIMEOUT`
treats an absent (or zero, by JS truthiness) timeout as 10000. -/
def createWreck (req : Request) (schemaTimeout : Option Nat) :
    Except String WreckConfig :=
  let proto :=
    match hget req.headers "x-forwarded-proto" with
    | some p => if p == "" then "https" else p
    | none => "https"
  let host := (hget req.headers "host").getD "undefined"
  let baseUrl? : Option String :=
    if req.xwt.urlFormat == USE_CUSTOM_DOMAIN then
      some (proto ++ "://" ++ host ++ "/" ++ req.xwt.container ++ "/")
    else if req.xwt.urlFormat == USE_SHARED_DOMAIN then
      some (proto ++ "://" ++ host ++ "/api/run/" ++ req.xwt.container ++ "/")
    else if req.xwt.urlFormat == USE_WILDCARD_DOMAIN then
      some (proto ++ "://" ++ host ++ "/")
    else none
  match baseUrl? with
  | none => .error ("Unexpected url format: " ++ toString req.xwt.urlFormat)
  | some baseUrl =>
    .ok { baseUrl := baseUrl,
          timeout :=
            match schemaTimeout with
            | some t => if t == 0 then DEFAULT_TIMEOUT else t
            | none => DEFAULT_TIMEOUT }

/-- Models the HTTP reason phrases used by the Boom library for the
status codes that occur in this development. -/
def boomPhrase (statusCode : Nat) : String :=
  if statusCode == 404 then "Not Found"
  else if statusCode == 500 then "Internal Server Error"
  else if statusCode == 502 then "Bad Gateway"
  else if statusCode == 504 then "Gateway Time-out"
  else "Unknown"

/-- The `output` field of a Boom error: status code, response headers
and the JSON payload that is serialized into the error response body. -/
structure BoomOutput where
  statusCode : Nat
  headers : Headers
  payload : JVal
deriving Repr

/-- Models a Boom error object as used by the executors: only its
`output` is ever read (workflow.js lines 209-218, 342-351). -/
structure BoomError where
  output : BoomOutput
deriving Repr

/-- Models `Boom.create(statusCode, message)` (and
`Boom.badImplementation(message)` via status 500): Boom masks the
message of a 500 error with a generic one in the payload. -/
def boomCreate (statusCode : Nat) (message : String) : BoomError :=
  { output :=
    { statusCode := statusCode,
      headers := [],
      payload := .obj
        [("statusCode", .num statusCode),
         ("error", .str (boomPhrase statusCode)),
         ("message", .str (if statusCode == 500 then
            "An internal server error occurred" else message))] } }

/-- A completed downstream HTTP exchange as surfaced by Wreck. -/
structure HttpResponse where
  statusCode : Nat
  statusMessage : String
  headers : Headers
  body : String
deriving Repr, DecidableEq

/-- The raw result of one `wreck.request` call: either a transport-level
error (connection failure or timeout, surfaced by Wreck as a Boom
error), or a completed response with some status code. -/
inductive StepResult where
  | transport (e : BoomError)
  | response (r : HttpResponse)
deriving Repr

def respOf : StepResult → Option HttpResponse
  | .transport _ => none
  | .response r => some r

/-- Embeds the classification performed in the `wreck.request` callback
of `compileSequence` (workflow.js lines 287-331): transport errors pass
through; a completed status >= 400 becomes `Boom.create` at that same
status; a completed status that is not 200 (and < 400) becomes
`Boom.badImplementation`, i.e. status 500; status 200 is the success
outcome. -/
def stepOutcome : StepResult → Except BoomError HttpResponse
  | .transport e => .error e
  | .response r =>
    if 400 ≤ r.statusCode then
      .error (boomCreate r.statusCode
        ("Unexpected status code: " ++ toString r.statusCode))
    else if r.statusCode ≠ 200 then
      .error (boomCreate 500
        ("Unexpected status code: " ++ toString r.statusCode))
    else .ok r

/-- The body written to the caller: either a JSON document passed to
`res.end(JSON.stringify(v))`, or a pass-through stream piped with
`result.pipe(res)`. -/
inductive Body where
  | json (v : JVal)
  | stream (s : String)
deriving Repr

/-- The response written to the caller via `res.writeHead`/`res.end`. -/
structure WrittenResponse where
  statusCode : Nat
  headers : Headers
  body : Body
deriving Repr

/-- The observable outcome of invoking a compiled executor: it either
wrote a response, or a JavaScript exception escaped the invocation. -/
inductive ExecOutcome where
  | wrote (w : WrittenResponse)
  | threw (msg : String)
deriving Repr

/-- Embeds the shared error-writing branch of both executors
(workflow.js lines 209-218 and 342-351): status and payload from the
Boom error's `output`, content type defaulted to JSON. -/
def boomResponse (e : BoomError) : WrittenResponse :=
  { statusCode := e.output.statusCode,
    headers := objAssign [("Content-Type", "application/json")] e.output.headers,
    body := .json e.output.payload }

/-- Models `Querystring.stringify` on a string-valued map. -/
def qstringify (q : List (String × String)) : String :=
  String.intercalate "&" (q.map (fun kv => kv.1 ++ "=" ++ kv.2))

/-- The downstream request produced for one node. -/
structure StepRequest where
  method : String
  uri : String
  headers : Headers
deriving Repr, DecidableEq

/-- Embeds the per-node request construction shared by both executors
(workflow.js lines 168-173 and 274-279): method is `node.method`
falling back to the inbound method, the query merges the node's query
over the inbound query, and the headers are supplied by the caller
(normalized inbound headers for fan-out, normalized previous-payload
headers for sequence). -/
def buildStepRequest (req : Request) (node : WorkflowNode) (hs : Headers) :
    StepRequest :=
  { method := node.method.getD req.method,
    uri := "/" ++ node.name ++ "?" ++ qstringify (objAssign req.query node.query),
    headers := hs }

def headersToJVal (hs : Headers) : JVal :=
  .obj (hs.map (fun kv => (kv.1, .str kv.2)))

/-- One element of the fan-out aggregate payload (workflow.js lines
241-245). -/
def fanoutEntry (r : HttpResponse) : JVal :=
  .obj [("statusCode", .num r.statusCode),
        ("statusMessage", .str r.statusMessage),
        ("headers", headersToJVal r.headers)]

/-- Embeds the `Async.map` phase of `compileFanout` (workflow.js lines
165-199): every node is dispatched; if any call yields a transport
error, the continuation receives that error (determinized here to the
first erroring index in node order) and the collected responses are
discarded; otherwise it receives the responses in node order. -/
def fanoutCollect (d : Nat → StepResult) :
    List WorkflowNode → Nat → Except BoomError (List HttpResponse)
  | [], _ => .ok []
  | _ :: rest, k =>
    match d k with
    | .transport e => .error e
    | .response r =>
      match fanoutCollect d rest (k + 1) with
      | .error e => .error e
      | .ok rs => .ok (r :: rs)

/-- Embeds the aggregation `reduce` of `compileFanout` (workflow.js
lines 223-248): the status starts at 200 and is set to 502 whenever a
response's status is not 200; one summary entry is appended per
response, in order. -/
def fanoutReduce (rs : List HttpResponse) : Nat × List JVal :=
  rs.foldl
    (fun acc r =>
      (if r.statusCode ≠ 200 then 502 else acc.1, acc.2 ++ [fanoutEntry r]))
    (200, [])

/-- Embeds the executor returned by `compileFanout` (workflow.js lines
157-261).  `d` is the environment oracle giving the result of the k-th
downstream call.  Returns the observable outcome together with the list
of downstream requests that were dispatched. -/
def webtaskFanout (sdef : WorkflowDef) (req : Request) (d : Nat → StepResult) :
    ExecOutcome × List StepRequest :=
  match createWreck req sdef.timeout with
  | .error msg => (.threw msg, [])
  | .ok _ =>
    let reqs := sdef.nodes.map
      (fun node => buildStepRequest req node (getNormalizedHeaders req.headers))
    match fanoutCollect d sdef.nodes 0 with
    | .error e => (.wrote (boomResponse e), reqs)
    | .ok rs =>
      let agg := fanoutReduce rs
      (.wrote { statusCode := agg.1,
                headers := [("Content-type", "application/json")],
                body := .json (.arr agg.2) }, reqs)

/-- Embeds the `Async.reduce` phase of `compileSequence` (workflow.js
lines 270-332): steps run in order, each step's request carries the
normalized headers of the previous payload (the inbound request for the
first step, the previous response afterwards); the first classified
failure short-circuits; the accumulator after the last step is the last
response (`none` when there are no nodes, in which case the accumulator
is still the inbound request). -/
def seqSteps (req : Request) (d : Nat → StepResult) :
    List WorkflowNode → Nat → Headers →
    List StepRequest × Except BoomError (Option HttpResponse)
  | [], _, _ => ([], .ok none)
  | node :: rest, k, payloadHeaders =>
    let sreq := buildStepRequest req node (getNormalizedHeaders payloadHeaders)
    match stepOutcome (d k) with
    | .error e => ([sreq], .error e)
    | .ok r =>
      match seqSteps req d rest (k + 1) r.headers with
      | (sreqs, .ok none) => (sreq :: sreqs, .ok (some r))
      | (sreqs, out) => (sreq :: sreqs, out)

/-- Embeds the executor returned by `compileSequence` (workflow.js lines
263-367).  On success the final response's status, headers and body are
written through (`result.pipe(res)`); on failure the Boom error's
output is written; with zero nodes the accumulator is the inbound
request, whose `statusCode` is `undefined`, so `res.writeHead` throws. -/
def webtaskSequence (sdef : WorkflowDef) (req : Request) (d : Nat → StepResult) :
    ExecOutcome × List StepRequest :=
  match createWreck req sdef.timeout with
  | .error msg => (.threw msg, [])
  | .ok _ =>
    match seqSteps req d sdef.nodes 0 req.headers with
    | (sreqs, .error e) => (.wrote (boomResponse e), sreqs)
    | (sreqs, .ok (some r)) =>
      (.wrote { statusCode := r.statusCode, headers := r.headers,
                body := .stream r.body }, sreqs)
    | (sreqs, .ok none) => (.threw "Invalid status code: undefined", sreqs)

def lookupField (fields : List (String × JVal)) (k : String) : Option JVal :=
  (fields.find? (fun kv => kv.1 == k)).map (fun kv => kv.2)

/-- Embeds Joi validation of `workflowNodeSchema` (workflow.js lines
39-43): a node must be an object, unknown keys are rejected (Joi's
default for objects), and `name` must be a present, non-empty string
(`Joi.string().required()`; Joi strings reject the empty string by
default). -/
def validateNode (v : JVal) : Except String WorkflowNode :=
  match v with
  | .obj fields =>
    if fields.any (fun kv => kv.1 != "name") then
      .error "node contains a key that is not allowed"
    else
      match lookupField fields "name" with
      | some (.str s) =>
        if s == "" then .error "name is not allowed to be empty"
        else .ok { name := s, method := none, query := [] }
      | some _ => .error "name must be a string"
      | none => .error "name is required"
  | _ => .error "node must be an object"

def validateNodes : List JVal → Except String (List WorkflowNode)
  | [] => .ok []
  | v :: rest =>
    match validateNode v with
    | .error msg => .error msg
    | .ok node =>
      match validateNodes rest with
      | .error msg => .error msg
      | .ok nodes => .ok (node :: nodes)

/-- Embeds Joi validation of `workflowSchema` (workflow.js lines 44-53
and 125-141).  Joi semantics faithfully modelled at this call site:
`Joi.string().allow(keys).required()` whitelists the listed values in
addition to any other string — `.allow` does not restrict, so any
non-empty string `type` passes; `Joi.array().items(nodeSchema).required()`
accepts the empty array (no `.min(1)`); unknown keys on the top-level
object are rejected (Joi's default), so `timeout` — and `method`/`query`
on nodes — never survive validation, which is why the validated
definition carries `timeout := none`. -/
def validateSchema (v : JVal) : Except String WorkflowDef :=
  match v with
  | .obj fields =>
    if fields.any (fun kv => kv.1 != "type" && kv.1 != "nodes") then
      .error "workflow contains a key that is not allowed"
    else
      match lookupField fields "type" with
      | none => .error "type is required"
      | some (.str t) =>
        if t == "" then .error "type is not allowed to be empty"
        else
          match lookupField fields "nodes" with
          | none => .error "nodes is required"
          | some (.arr items) =>
            match validateNodes items with
            | .error msg => .error msg
            | .ok nodes => .ok { type := t, nodes := nodes, timeout := none }
          | some _ => .error "nodes must be an array"
      | some _ => .error "type must be a string"
  | _ => .error "workflow must be an object"

/-- The raw `options.script` value handed to the compiler: absent, a
string of code/text, or an already-structured object. -/
inductive ScriptVal where
  | absent
  | text (s : String)
  | objectVal (v : JVal)
deriving Repr

/-- The result of `compileScript`: the callback receives a value or an
error, or a JavaScript exception escapes without the callback ever
being invoked. -/
inductive ResolveResult where
  | ok (v : JVal)
  | err (msg : String)
  | crash (msg : String)
deriving Repr

/-- Embeds `compileScript` (workflow.js lines 71-110).  `jsonParse`
models `JSON.parse` (`none` = it threw); `nodejsCompiler` is the
injected compile capability.  Faithful to the source bug at lines
97-105: in the error branch the new `const error` shadows the callback
parameter inside its own initializer, so evaluating `error.message`
there is a temporal-dead-zone violation and the callback throws a
`ReferenceError` instead of reporting the wrapped compile failure. -/
def compileScript (script : ScriptVal) (jsonParse : String → Option JVal)
    (nodejsCompiler : String → Except String JVal) : ResolveResult :=
  match script with
  | .absent => .err "Invalid webtask workflow: the webtask cannot be empty"
  | .objectVal .null =>
    .err "Invalid webtask workflow: the webtask cannot be empty"
  | .objectVal v => .ok v
  | .text s =>
    if s == "" then .err "Invalid webtask workflow: the webtask cannot be empty"
    else
      match jsonParse s with
      | some v => .ok v
      | none =>
        match nodejsCompiler s with
        | .ok v => .ok v
        | .error _ =>
          .crash "ReferenceError: cannot access error before initialization"

inductive ExecType where
  | fanout
  | sequence
deriving Repr, DecidableEq

/-- The observable outcome of the whole compiler pipeline. -/
inductive CompileOutcome where
  | ok (t : ExecType) (d : WorkflowDef)
  | resolveError (msg : String)
  | validationError (msg : String)
  | crashed (msg : String)
deriving Repr

/-- Embeds `createCompiler` (workflow.js lines 149-155):
`compoundWebtaskCompilers[schema.type]` is looked up without a guard, so
a `type` outside the registry makes `compiler(schema)` a call of
`undefined`, a thrown `TypeError`. -/
def createCompiler (d : WorkflowDef) : CompileOutcome :=
  if d.type == "fanout" then .ok .fanout d
  else if d.type == "sequence" then .ok .sequence d
  else .crashed "TypeError: compiler is not a function"

/-- Embeds the `Async.waterfall` pipeline of `compiler` (workflow.js
lines 55-62): script resolution, then Joi validation (whose failure is
Boom-wrapped with the `Invalid webtask workflow:` message), then
executor selection. -/
def compilerPipeline (script : ScriptVal) (jsonParse : String → Option JVal)
    (nodejsCompiler : String → Except String JVal) : CompileOutcome :=
  match compileScript script jsonParse nodejsCompiler with
  | .crash msg => .crashed msg
  | .err msg => .resolveError msg
  | .ok v =>
    match validateSchema v with
    | .error msg => .validationError ("Invalid webtask workflow: " ++ msg)
    | .ok d => createCompiler d

/-- Reads the response out of a `StepResult` that is known to be a
response (with an inert default otherwise); used only to state results
of executions in which every exchange completed. -/
def forcedResp : StepResult → HttpResponse
  | .response r => r
  | .transport _ => { statusCode := 0, statusMessage := "", headers := [], body := "" }

def c7resp404 : HttpResponse :=
  { statusCode := 404, statusMessage := "Not Found", headers := [], body := "" }

def c7resp204 : HttpResponse :=
  { statusCode := 204, statusMessage := "No Content", headers := [], body := "" }

def c7resp200 : HttpResponse :=
  { statusCode := 200, statusMessage := "OK", headers := [], body := "ok" }

/-- Lowercases the ASCII letters of a string; formalizes the
case-insensitive matching spoken of by the specification. -/
def lowerAscii (s : String) : String :=
  String.mk (s.data.map Char.toLower)

def c9hs : Headers :=
  [("content-type", "application/json"), ("host", "example.com"),
   ("x-wt-params", "abc"), ("x-custom", "1")]

/-- A candidate definition with an unregistered `type` and zero nodes —
the definition the specification expects validation to reject on both
counts. -/
def loopEmptyCandidate : JVal :=
  .obj [("type", .str "loop"), ("nodes", .arr [])]

def jsonParseNever : String → Option JVal := fun _ => none

def jsonParseArrOne : String → Option JVal :=
  fun s => if s == "[1]" then some (.arr [.num 1]) else none

def compilerYieldsLoop : String → Except String JVal :=
  fun _ => .ok loopEmptyCandidate

def compilerReportsError : String → Except String JVal :=
  fun _ => .error "SyntaxError: unexpected token"

/-- A workflow definition carrying the documented optional top-level
`timeout`. -/
def timeoutCandidate : JVal :=
  .obj [("type", .str "fanout"),
        ("nodes", .arr [.obj [("name", .str "a")]]),
        ("timeout", .num 5000)]

/-- A workflow definition whose node carries the documented optional
`method`. -/
def methodNodeCandidate : JVal :=
  .obj [("type", .str "sequence"),
        ("nodes", .arr [.obj [("name", .str "a"), ("method", .str "POST")]])]

/-- A workflow definition whose node carries the documented optional
`query`. -/
def queryNodeCandidate : JVal :=
  .obj [("type", .str "sequence"),
        ("nodes",
         .arr [.obj [("name", .str "a"), ("query", .obj [("k", .str "v")])]])]

def c8req : Request :=
  { method := "GET",
    headers := [("host", "tenant.example.com")],
    query := [("a", "1"), ("b", "2")],
    xwt := { urlFormat := 3, container := "c" },
    body := "" }

def c1wDef : WorkflowDef :=
  { type := "fanout",
    nodes := [{ name := "a", method := none, query := [] },
              { name := "b", method := none, query := [] }],
    timeout := none }

def c1wReq : Request :=
  { method := "GET", headers := [("host", "w.example.com")], query := [],
    xwt := { urlFormat := 2, container := "cont" }, body := "" }

def c1wD : Nat → StepResult := fun i =>
  if i == 0 then
    .response { statusCode := 200, statusMessage := "OK", headers := [], body := "" }
  else
    .response { statusCode := 500, statusMessage := "Internal Server Error",
                headers := [], body := "" }

def c1xDef : WorkflowDef :=
  { type := "fanout",
    nodes := [{ name := "a", method := none, query := [] }],
    timeout := none }

def c1xReq : Request :=
  { method := "GET", headers := [("host", "x.example.com")], query := [],
    xwt := { urlFormat := 3, container := "cont" }, body := "" }

/-- The Boom error Wreck produces for a downstream client timeout. -/
def c1xErr : BoomError := boomCreate 504 "Client request timeout"

def c1xD : Nat → StepResult := fun _ => .transport c1xErr

def c3def : WorkflowDef :=
  { type := "sequence",
    nodes := [{ name := "a", method := none, query := [] },
              { name := "b", method := none, query := [] },
              { name := "c", method := none, query := [] }],
    timeout := none }

def c3req : Request :=
  { method := "POST", headers := [("host", "h.example.com")], query := [],
    xwt := { urlFormat := 1, container := "cont" }, body := "payload" }

def c3d : Nat → StepResult := fun k =>
  if k == 0 then
    .response { statusCode := 200, statusMessage := "OK",
                headers := [("x", "y")], body := "b0" }
  else
    .response { statusCode := 500, statusMessage := "Internal Server Error",
                headers := [], body := "b1" }

def c4def : WorkflowDef :=
  { type := "sequence",
    nodes := [{ name := "a", method := none, query := [] },
              { name := "b", method := none, query := [] }],
    timeout := none }

def c4req : Request :=
  { method := "GET", headers := [("host", "s.example.com")], query := [],
    xwt := { urlFormat := 2, container := "cont" }, body := "inbound" }

def c4d : Nat → StepResult := fun k =>
  if k == 0 then
    .response { statusCode := 200, statusMessage := "OK",
                headers := [("h0", "v0")], body := "first" }
  else
    .response { statusCode := 200, statusMessage := "OK",
                headers := [("h1", "v1")], body := "final" }

def c10def : WorkflowDef :=
  { type := "fanout",
    nodes := [{ name := "a", method := none, query := [] },
              { name := "b", method := none, query := [] }],
    timeout := none }

def c10req : Request :=
  { method := "GET", headers := [("host", "f.example.com")], query := [],
    xwt := { urlFormat := 1, container := "cont" }, body := "" }

def c10err : BoomError := boomCreate 502 "Client request error"

def c10d : Nat → StepResult := fun k =>
  if k == 0 then
    .response { statusCode := 200, statusMessage := "OK", headers := [], body := "" }
  else
    .transport c10err

def c6xReq : Request :=
  { method := "GET", headers := [], query := [],
    xwt := { urlFormat := 0, container := "c" }, body := "" }

def c6xDef : WorkflowDef :=
  { type := "sequence",
    nodes := [{ name := "a", method := none, query := [] }],
    timeout := none }

def c6xD : Nat → StepResult := fun _ =>
  .response { statusCode := 200, statusMessage := "OK", headers := [], body := "" }

/-!
Theorems.
-/

theorem forcedResp_response (r : HttpResponse) : forcedResp (.response r) = r := rfl

theorem stepOutcome_ok200 (r : HttpResponse) (h : r.statusCode = 200) :
    stepOutcome (.response r) = .ok r := by
  simp [stepOutcome, h]

theorem fanoutReduce_go (rs : List HttpResponse) (c : Nat) (es : List JVal) :
    rs.foldl
      (fun acc r =>
        (if r.statusCode ≠ 200 then 502 else acc.1, acc.2 ++ [fanoutEntry r]))
      (c, es) =
    (if rs.all (fun r => r.statusCode == 200) then c else 502,
     es ++ rs.map fanoutEntry) := by
  induction rs generalizing c es with
  | nil => simp
  | cons r rs ih =>
    simp only [List.foldl_cons, List.all_cons, List.map_cons]
    rw [ih]
    by_cases h : r.statusCode = 200
    · simp [h]
    · simp [h]

theorem fanoutReduce_eq (rs : List HttpResponse) :
    fanoutReduce rs =
      (if rs.all (fun r => r.statusCode == 200) then 200 else 502,
       rs.map fanoutEntry) := by
  simpa [fanoutReduce] using fanoutReduce_go rs 200 []

theorem fanoutCollect_ok (d : Nat → StepResult) (nodes : List WorkflowNode) :
    ∀ (j : Nat), (∀ i, i < nodes.length → ∃ r, d (j + i) = .response r) →
      fanoutCollect d nodes j =
        .ok ((List.range' j nodes.length).map (fun i => forcedResp (d i))) := by
  induction nodes with
  | nil => intro j _; simp [fanoutCollect]
  | cons node rest ih =>
    intro j h
    obtain ⟨r, hr⟩ := h 0 (by simp)
    rw [Nat.add_zero] at hr
    have hrest : ∀ i, i < rest.length → ∃ r, d (j + 1 + i) = .response r := by
      intro i hi
      have hx := h (i + 1) (by simpa using Nat.succ_lt_succ hi)
      rwa [show j + (i + 1) = j + 1 + i by omega] at hx
    simp [fanoutCollect, hr, ih (j + 1) hrest, List.range'_succ, forcedResp]

theorem fanoutCollect_err (d : Nat → StepResult) (e : BoomError)
    (nodes : List WorkflowNode) :
    ∀ (j k : Nat), k < nodes.length →
      (∀ i, i < k → ∃ r, d (j + i) = .response r) →
      d (j + k) = .transport e →
      fanoutCollect d nodes j = .error e := by
  induction nodes with
  | nil => intro j k hk _ _; simp at hk
  | cons node rest ih =>
    intro j k hk hprev htr
    match k with
    | 0 =>
      rw [Nat.add_zero] at htr
      simp [fanoutCollect, htr]
    | k + 1 =>
      obtain ⟨r, hr⟩ := hprev 0 (by omega)
      rw [Nat.add_zero] at hr
      have hprev1 : ∀ i, i < k → ∃ r, d (j + 1 + i) = .response r := by
        intro i hi
        have hx := hprev (i + 1) (by omega)
        rwa [show j + (i + 1) = j + 1 + i by omega] at hx
      have htr1 : d (j + 1 + k) = .transport e := by
        rwa [show j + (k + 1) = j + 1 + k by omega] at htr
      have hrec := ih (j + 1) k (by simpa using Nat.lt_of_succ_lt_succ hk) hprev1 htr1
      simp [fanoutCollect, hr, hrec]

theorem createWreck_unrecognized (req : Request) (t : Option Nat)
    (h1 : req.xwt.urlFormat ≠ 1) (h2 : req.xwt.urlFormat ≠ 2)
    (h3 : req.xwt.urlFormat ≠ 3) :
    createWreck req t =
      .error ("Unexpected url format: " ++ toString req.xwt.urlFormat) := by
  simp [createWreck, USE_CUSTOM_DOMAIN, USE_SHARED_DOMAIN, USE_WILDCARD_DOMAIN,
    beq_iff_eq, h1, h2, h3]

theorem seqSteps_cons (req : Request) (d : Nat → StepResult)
    (node : WorkflowNode) (rest : List WorkflowNode) (k : Nat) (ph : Headers) :
    seqSteps req d (node :: rest) k ph =
      match stepOutcome (d k) with
      | .error e =>
        ([buildStepRequest req node (getNormalizedHeaders ph)], .error e)
      | .ok r =>
        match seqSteps req d rest (k + 1) r.headers with
        | (sreqs, .ok none) =>
          (buildStepRequest req node (getNormalizedHeaders ph) :: sreqs,
           .ok (some r))
        | (sreqs, out) =>
          (buildStepRequest req node (getNormalizedHeaders ph) :: sreqs, out) :=
  rfl

theorem seqSteps_all200 (req : Request) (d : Nat → StepResult)
    (nodes : List WorkflowNode) :
    ∀ (j : Nat) (hs : Headers),
      (∀ i, i < nodes.length → ∃ r, d (j + i) = .response r ∧ r.statusCode = 200) →
      (seqSteps req d nodes j hs).1.length = nodes.length ∧
      (nodes ≠ [] →
        ∃ r, d (j + (nodes.length - 1)) = .response r ∧ r.statusCode = 200 ∧
          (seqSteps req d nodes j hs).2 = .ok (some r)) := by
  induction nodes with
  | nil => intro j hs _; simp [seqSteps]
  | cons node rest ih =>
    intro j hs h
    obtain ⟨r0, hr0, hr0s⟩ := h 0 (by simp)
    rw [Nat.add_zero] at hr0
    have hstep : stepOutcome (d j) = .ok r0 := by
      rw [hr0]; exact stepOutcome_ok200 r0 hr0s
    have hrest : ∀ i, i < rest.length →
        ∃ r, d (j + 1 + i) = .response r ∧ r.statusCode = 200 := by
      intro i hi
      have hx := h (i + 1) (by simpa using Nat.succ_lt_succ hi)
      rwa [show j + (i + 1) = j + 1 + i by omega] at hx
    by_cases hrnil : rest = []
    · subst hrnil
      constructor
      · rw [seqSteps_cons, hstep]
        simp [seqSteps]
      · intro _
        refine ⟨r0, by simpa using hr0, hr0s, ?_⟩
        rw [seqSteps_cons, hstep]
        simp [seqSteps]
    · have hih := ih (j + 1) r0.headers hrest
      rcases hrec : seqSteps req d rest (j + 1) r0.headers with ⟨sreqs, out⟩
      rw [hrec] at hih
      obtain ⟨hlen, hsome⟩ := hih
      obtain ⟨r, hr, hrs, hout⟩ := hsome hrnil
      simp only at hlen hout
      subst hout
      have hpos : 0 < rest.length := List.length_pos.mpr hrnil
      constructor
      · rw [seqSteps_cons, hstep]
        simp [hrec, hlen]
      · intro _
        refine ⟨r, ?_, hrs, ?_⟩
        · rwa [show j + ((node :: rest).length - 1) = j + 1 + (rest.length - 1) by
            simp only [List.length_cons]
            omega]
        · rw [seqSteps_cons, hstep]
          simp [hrec]

theorem seqSteps_firstErr (req : Request) (d : Nat → StepResult) (e : BoomError)
    (nodes : List WorkflowNode) :
    ∀ (j : Nat) (hs : Headers) (k : Nat), k < nodes.length →
      (∀ i, i < k → ∃ r, d (j + i) = .response r ∧ r.statusCode = 200) →
      stepOutcome (d (j + k)) = .error e →
      (seqSteps req d nodes j hs).1.length = k + 1 ∧
      (seqSteps req d nodes j hs).2 = .error e := by
  induction nodes with
  | nil => intro j hs k hk _ _; simp at hk
  | cons node rest ih =>
    intro j hs k hk hprev herr
    match k with
    | 0 =>
      rw [Nat.add_zero] at herr
      simp [seqSteps, herr]
    | k + 1 =>
      obtain ⟨r0, hr0, hr0s⟩ := hprev 0 (by omega)
      rw [Nat.add_zero] at hr0
      have hstep : stepOutcome (d j) = .ok r0 := by
        rw [hr0]; exact stepOutcome_ok200 r0 hr0s
      have hprev1 : ∀ i, i < k →
          ∃ r, d (j + 1 + i) = .response r ∧ r.statusCode = 200 := by
        intro i hi
        have hx := hprev (i + 1) (by omega)
        rwa [show j + (i + 1) = j + 1 + i by omega] at hx
      have herr1 : stepOutcome (d (j + 1 + k)) = .error e := by
        rwa [show j + (k + 1) = j + 1 + k by omega] at herr
      have hrec' := ih (j + 1) r0.headers k
        (by simpa using Nat.lt_of_succ_lt_succ hk) hprev1 herr1
      rcases hrec : seqSteps req d rest (j + 1) r0.headers with ⟨sreqs, out⟩
      rw [hrec] at hrec'
      obtain ⟨hlen, hout⟩ := hrec'
      subst hout
      constructor
      · simp only [seqSteps, hstep, hrec]
        simpa using hlen
      · simp [seqSteps, hstep, hrec]

theorem seqSteps_cons_ne_none (req : Request) (d : Nat → StepResult)
    (node : WorkflowNode) (rest : List WorkflowNode) (j : Nat) (hs : Headers) :
    (seqSteps req d (node :: rest) j hs).2 ≠ .ok none := by
  rcases hso : stepOutcome (d j) with e | r
  · simp [seqSteps, hso]
  · rcases hrec : seqSteps req d rest (j + 1) r.headers with ⟨sreqs, out⟩
    rcases out with e | ro
    · simp [seqSteps, hso, hrec]
    · rcases ro with _ | r2
      · simp [seqSteps, hso, hrec]
      · simp [seqSteps, hso, hrec]

/-- C7: for every downstream call whose HTTP exchange completes, the
sequence executor classifies the outcome as follows: status >= 400
becomes a failure outcome carrying that same status code; a status in
[200, 400) other than 200 becomes a failure outcome collapsed to the
generic internal status 500 regardless of the actual code; status
exactly 200 becomes a response outcome. -/
theorem c7_downstream_classification (r : HttpResponse) :
    (400 ≤ r.statusCode →
      ∃ e, stepOutcome (.response r) = .error e ∧
        e.output.statusCode = r.statusCode) ∧
    (200 ≤ r.statusCode → r.statusCode < 400 → r.statusCode ≠ 200 →
      ∃ e, stepOutcome (.response r) = .error e ∧ e.output.statusCode = 500) ∧
    (r.statusCode = 200 → stepOutcome (.response r) = .ok r) := by
  refine ⟨?_, ?_, ?_⟩
  · intro h
    refine ⟨boomCreate r.statusCode
      ("Unexpected status code: " ++ toString r.statusCode), ?_, rfl⟩
    simp [stepOutcome, h]
  · intro h1 h2 h3
    refine ⟨boomCreate 500
      ("Unexpected status code: " ++ toString r.statusCode), ?_, rfl⟩
    have h4 : ¬ 400 ≤ r.statusCode := by omega
    simp [stepOutcome, h4, h3]
  · intro h
    exact stepOutcome_ok200 r h

/-- Witness for C7 at statuses 404, 204 and 200. -/
theorem c7_downstream_classification_witness :
    (∃ e, stepOutcome (.response c7resp404) = .error e ∧
      e.output.statusCode = c7resp404.statusCode) ∧
    (∃ e, stepOutcome (.response c7resp204) = .error e ∧
      e.output.statusCode = 500) ∧
    stepOutcome (.response c7resp200) = .ok c7resp200 :=
  ⟨(c7_downstream_classification c7resp404).1 (by decide),
   (c7_downstream_classification c7resp204).2.1 (by decide) (by decide) (by decide),
   (c7_downstream_classification c7resp200).2.2 rfl⟩

/-- C9: when the source header map has lowercase keys (the Node.js
runtime invariant for both inbound request headers and Wreck response
headers), the forwarded header map equals the source map with exactly
the eight listed keys removed, matched case-insensitively, and every
other header entry unchanged. -/
theorem c9_forwarded_headers (hs : Headers)
    (hlower : ∀ kv ∈ hs, lowerAscii (kv : String × String).1 = kv.1) :
    getNormalizedHeaders hs =
      hs.filter (fun kv => !(strippedHeaderNames.contains (lowerAscii kv.1))) ∧
    (∀ kv ∈ hs, strippedHeaderNames.contains (lowerAscii kv.1) = false →
      kv ∈ getNormalizedHeaders hs) ∧
    (∀ kv ∈ getNormalizedHeaders hs,
      kv ∈ hs ∧ strippedHeaderNames.contains (lowerAscii kv.1) = false) := by
  have hfc : getNormalizedHeaders hs =
      hs.filter (fun kv => !(strippedHeaderNames.contains (lowerAscii kv.1))) := by
    unfold getNormalizedHeaders
    apply List.filter_congr
    intro kv hkv
    simp only [hlower kv hkv]
  refine ⟨hfc, ?_, ?_⟩
  · intro kv hkv hnc
    rw [hfc]
    exact List.mem_filter.mpr ⟨hkv, by simpa using hnc⟩
  · intro kv hkv
    rw [hfc] at hkv
    obtain ⟨h1, h2⟩ := List.mem_filter.mp hkv
    exact ⟨h1, by simpa using h2⟩

/-- Witness for C9 on a concrete header map. -/
theorem c9_forwarded_headers_witness :
    getNormalizedHeaders c9hs =
      c9hs.filter (fun kv => !(strippedHeaderNames.contains (lowerAscii kv.1))) ∧
    (∀ kv ∈ c9hs, strippedHeaderNames.contains (lowerAscii kv.1) = false →
      kv ∈ getNormalizedHeaders c9hs) ∧
    (∀ kv ∈ getNormalizedHeaders c9hs,
      kv ∈ c9hs ∧ strippedHeaderNames.contains (lowerAscii kv.1) = false) :=
  c9_forwarded_headers c9hs (by decide)

/-- C2 (code evaluation): contrary to the claim, Joi validation accepts
an unregistered workflow `type` (`.allow` whitelists values but does
not restrict, so any non-empty string passes) and accepts an empty
`nodes` array (there is no `.min(1)`); the pipeline then crashes with a
`TypeError` in `createCompiler` instead of reporting a
`ValidationError`, contradicting the source comment that a validated
schema always has a valid type.  The remaining conditions of the claim
do hold: missing `type`, missing `nodes`, and missing or blank node
`name` are rejected. -/
theorem c2_validation_accepts_bad_definitions :
    validateSchema loopEmptyCandidate =
      .ok { type := "loop", nodes := [], timeout := none } ∧
    compilerPipeline (.objectVal loopEmptyCandidate) (fun _ => none)
      (fun _ => .error "unused") =
      .crashed "TypeError: compiler is not a function" ∧
    validateSchema (.obj [("nodes", .arr [.obj [("name", .str "a")]])]) =
      .error "type is required" ∧
    validateSchema (.obj [("type", .str "fanout")]) =
      .error "nodes is required" ∧
    validateSchema
      (.obj [("type", .str "fanout"),
             ("nodes", .arr [.obj [("name", .str "")]])]) =
      .error "name is not allowed to be empty" ∧
    validateSchema
      (.obj [("type", .str "fanout"), ("nodes", .arr [.obj []])]) =
      .error "name is required" :=
  ⟨rfl, rfl, rfl, rfl, rfl, rfl⟩

/-- C5 (code evaluation): the two-stage fallback behaves as claimed on
the empty, object, JSON and compiled-code paths, but on the
compile-error path the source's shadowed `const error` is read inside
its own initializer, so the callback throws a `ReferenceError` instead
of reporting the wrapped \'error compiling\' message. -/
theorem c5_resolution_two_stage :
    compileScript .absent jsonParseNever compilerReportsError =
      .err "Invalid webtask workflow: the webtask cannot be empty" ∧
    compileScript (.text "") jsonParseNever compilerReportsError =
      .err "Invalid webtask workflow: the webtask cannot be empty" ∧
    compileScript (.objectVal loopEmptyCandidate) jsonParseNever
      compilerReportsError = .ok loopEmptyCandidate ∧
    compileScript (.text "[1]") jsonParseArrOne compilerReportsError =
      .ok (.arr [.num 1]) ∧
    compileScript (.text "module.exports = 1") jsonParseNever
      compilerYieldsLoop = .ok loopEmptyCandidate ∧
    compileScript (.text "module.exports = 1") jsonParseNever
      compilerReportsError =
      .crash "ReferenceError: cannot access error before initialization" :=
  ⟨rfl, rfl, rfl, rfl, rfl, rfl⟩

/-- C8 (code evaluation): contrary to the claim, the Joi schema rejects
the documented optional fields — a top-level `timeout` and node-level
`method`/`query` all fail validation as unknown keys — even though the
execution code implements exactly the claimed call-time behaviour:
absent timeout defaults to 10000, absent node method falls back to the
inbound method, and node query keys win over inbound query keys. -/
theorem c8_optional_fields :
    (validateSchema timeoutCandidate =
      .error "workflow contains a key that is not allowed") ∧
    (validateSchema methodNodeCandidate =
      .error "node contains a key that is not allowed") ∧
    (validateSchema queryNodeCandidate =
      .error "node contains a key that is not allowed") ∧
    createWreck c8req none =
      .ok { baseUrl := "https://tenant.example.com/", timeout := 10000 } ∧
    (buildStepRequest c8req { name := "n", method := none, query := [] }
      []).method = "GET" ∧
    (buildStepRequest c8req { name := "n", method := some "POST", query := [] }
      []).method = "POST" ∧
    objAssign [("a", "1"), ("b", "2")] [("b", "9"), ("c", "3")] =
      [("a", "1"), ("b", "9"), ("c", "3")] ∧
    (buildStepRequest c8req { name := "n", method := none, query := [("b", "9")] }
      []).uri = "/n?a=1&b=9" :=
  ⟨rfl, rfl, rfl, rfl, rfl, rfl, rfl, rfl⟩

theorem fanoutAll_iff (d : Nat → StepResult) (n : Nat)
    (hresp : ∀ i, i < n → ∃ r, d i = .response r) :
    (((List.range n).map (fun i => forcedResp (d i))).all
        (fun r => r.statusCode == 200) = true) ↔
    (∀ i, i < n → ∃ r, d i = .response r ∧ r.statusCode = 200) := by
  rw [List.all_eq_true]
  constructor
  · intro hall i hi
    obtain ⟨r, hr⟩ := hresp i hi
    refine ⟨r, hr, ?_⟩
    have hmem : forcedResp (d i) ∈
        (List.range n).map (fun i => forcedResp (d i)) :=
      List.mem_map_of_mem _ (List.mem_range.mpr hi)
    have hx := hall _ hmem
    rw [hr] at hx
    simpa [forcedResp] using hx
  · intro hpt x hx
    obtain ⟨i, hi, rfl⟩ := List.mem_map.mp hx
    obtain ⟨r, hr, h200⟩ := hpt i (List.mem_range.mp hi)
    rw [hr]
    simpa [forcedResp] using h200

/-- C1 (amended): for every fan-out execution in which every node's
HTTP exchange completes (no transport-level error), the aggregate
status is 200 iff every node's response has status 200 and is 502
otherwise, and the response body is a JSON array of exactly N summary
entries in definition node order, each reflecting its own node's
observed status even when a sibling returned non-200. -/
theorem c1_fanout_aggregation (sdef : WorkflowDef) (req : Request)
    (d : Nat → StepResult)
    (hw : ∃ cfg, createWreck req sdef.timeout = .ok cfg)
    (hresp : ∀ i, i < sdef.nodes.length → ∃ r, d i = .response r) :
    ∃ w : WrittenResponse,
      (webtaskFanout sdef req d).1 = .wrote w ∧
      (w.statusCode = 200 ∨ w.statusCode = 502) ∧
      (w.statusCode = 200 ↔
        ∀ i, i < sdef.nodes.length →
          ∃ r, d i = .response r ∧ r.statusCode = 200) ∧
      ∃ entries : List JVal,
        w.body = .json (.arr entries) ∧
        entries.length = sdef.nodes.length ∧
        ∀ i, i < sdef.nodes.length →
          ∃ r, d i = .response r ∧ entries[i]? = some (fanoutEntry r) := by
  obtain ⟨cfg, hcfg⟩ := hw
  have hresp0 : ∀ i, i < sdef.nodes.length → ∃ r, d (0 + i) = .response r := by
    intro i hi
    simpa using hresp i hi
  have hcol : fanoutCollect d sdef.nodes 0 =
      .ok ((List.range sdef.nodes.length).map (fun i => forcedResp (d i))) := by
    rw [List.range_eq_range']
    exact fanoutCollect_ok d sdef.nodes 0 hresp0
  have hred := fanoutReduce_eq
    ((List.range sdef.nodes.length).map (fun i => forcedResp (d i)))
  refine ⟨{ statusCode :=
              (fanoutReduce ((List.range sdef.nodes.length).map
                (fun i => forcedResp (d i)))).1,
            headers := [("Content-type", "application/json")],
            body := .json (.arr
              (fanoutReduce ((List.range sdef.nodes.length).map
                (fun i => forcedResp (d i)))).2) },
    ?_, ?_, ?_, ?_⟩
  · simp [webtaskFanout, hcfg, hcol]
  · rw [hred]
    by_cases hall : ((List.range sdef.nodes.length).map
        (fun i => forcedResp (d i))).all (fun r => r.statusCode == 200) = true
    · simp [hall]
    · simp [hall]
  · by_cases hall : ((List.range sdef.nodes.length).map
        (fun i => forcedResp (d i))).all (fun r => r.statusCode == 200) = true
    · constructor
      · intro _
        exact (fanoutAll_iff d sdef.nodes.length hresp).mp hall
      · intro _
        simp [hred, hall]
    · constructor
      · intro h200
        exfalso
        rw [hred] at h200
        simp [hall] at h200
      · intro h
        exact absurd ((fanoutAll_iff d sdef.nodes.length hresp).mpr h) hall
  · refine ⟨(fanoutReduce ((List.range sdef.nodes.length).map
        (fun i => forcedResp (d i)))).2, rfl, ?_, ?_⟩
    · rw [hred]
      simp
    · intro i hi
      obtain ⟨r, hr⟩ := hresp i hi
      refine ⟨r, hr, ?_⟩
      rw [hred]
      simp [List.getElem?_range hi, hr, forcedResp]

/-- Witness for the amended C1: a two-node fan-out where node 0 returns
200 and node 1 returns 500. -/
theorem c1_fanout_aggregation_witness :
    ∃ w : WrittenResponse,
      (webtaskFanout c1wDef c1wReq c1wD).1 = .wrote w ∧
      (w.statusCode = 200 ∨ w.statusCode = 502) ∧
      (w.statusCode = 200 ↔
        ∀ i, i < c1wDef.nodes.length →
          ∃ r, c1wD i = .response r ∧ r.statusCode = 200) ∧
      ∃ entries : List JVal,
        w.body = .json (.arr entries) ∧
        entries.length = c1wDef.nodes.length ∧
        ∀ i, i < c1wDef.nodes.length →
          ∃ r, c1wD i = .response r ∧ entries[i]? = some (fanoutEntry r) :=
  c1_fanout_aggregation c1wDef c1wReq c1wD ⟨_, rfl⟩
    (fun i hi => by
      have hi2 : i < 2 := hi
      interval_cases i
      · exact ⟨_, rfl⟩
      · exact ⟨_, rfl⟩)

/-- Counterexample to C1 as stated: a single-node fan-out whose node
times out at the transport level. Not every node outcome is a 200
response, yet the written status is 504 (the transport error's own
status), not 502, and the body is the error payload object, not an
N-entry array. -/
theorem c1_counterexample :
    (webtaskFanout c1xDef c1xReq c1xD).1 = .wrote (boomResponse c1xErr) ∧
    (boomResponse c1xErr).statusCode = 504 ∧
    ((boomResponse c1xErr).statusCode = 502 → False) ∧
    (∀ entries : List JVal,
      (boomResponse c1xErr).body = .json (.arr entries) → False) ∧
    ((∀ i, i < c1xDef.nodes.length →
        ∃ r, c1xD i = .response r ∧ r.statusCode = 200) → False) := by
  refine ⟨rfl, rfl, by decide, ?_, ?_⟩
  · intro entries h
    simp [boomResponse, c1xErr, boomCreate] at h
  · intro h
    obtain ⟨r, hr, _⟩ := h 0 (by decide)
    simp [c1xD] at hr

/-- C3: in a sequence execution whose first k steps succeed with status
200 and whose step k produces a failure outcome, exactly k + 1
downstream requests are dispatched (nodes k+1 .. N-1 are never
invoked), and the response written to the caller carries the failure
outcome's status code and error payload. -/
theorem c3_sequence_short_circuit (sdef : WorkflowDef) (req : Request)
    (d : Nat → StepResult) (k : Nat) (e : BoomError)
    (hw : ∃ cfg, createWreck req sdef.timeout = .ok cfg)
    (hk : k < sdef.nodes.length)
    (hprev : ∀ i, i < k → ∃ r, d i = .response r ∧ r.statusCode = 200)
    (herr : stepOutcome (d k) = .error e) :
    (webtaskSequence sdef req d).2.length = k + 1 ∧
    (webtaskSequence sdef req d).1 = .wrote (boomResponse e) ∧
    (boomResponse e).statusCode = e.output.statusCode ∧
    (boomResponse e).body = .json e.output.payload := by
  obtain ⟨cfg, hcfg⟩ := hw
  have hprev0 : ∀ i, i < k → ∃ r, d (0 + i) = .response r ∧ r.statusCode = 200 := by
    intro i hi
    simpa using hprev i hi
  have herr0 : stepOutcome (d (0 + k)) = .error e := by simpa using herr
  have hrun := seqSteps_firstErr req d e sdef.nodes 0 req.headers k hk hprev0 herr0
  rcases hseq : seqSteps req d sdef.nodes 0 req.headers with ⟨sreqs, out⟩
  rw [hseq] at hrun
  obtain ⟨hlen, hout⟩ := hrun
  simp only at hlen hout
  subst hout
  refine ⟨?_, ?_, rfl, rfl⟩
  · simp [webtaskSequence, hcfg, hseq, hlen]
  · simp [webtaskSequence, hcfg, hseq]

/-- Witness for C3: a three-node sequence whose second step answers 500;
only two requests are dispatched. -/
theorem c3_sequence_short_circuit_witness :
    (webtaskSequence c3def c3req c3d).2.length = 2 ∧
    (webtaskSequence c3def c3req c3d).1 =
      .wrote (boomResponse (boomCreate 500 "Unexpected status code: 500")) ∧
    (boomResponse (boomCreate 500 "Unexpected status code: 500")).statusCode =
      (boomCreate 500 "Unexpected status code: 500").output.statusCode ∧
    (boomResponse (boomCreate 500 "Unexpected status code: 500")).body =
      .json (boomCreate 500 "Unexpected status code: 500").output.payload :=
  c3_sequence_short_circuit c3def c3req c3d 1
    (boomCreate 500 "Unexpected status code: 500")
    ⟨_, rfl⟩ (by decide)
    (fun i hi => by
      have hi2 : i < 1 := hi
      interval_cases i
      exact ⟨_, rfl, rfl⟩)
    rfl

/-- C4: in a sequence execution where every step returns status 200,
the response written to the caller is exactly the last node's response:
same status code, same headers, and the body streamed through
unmodified; all N requests are dispatched. -/
theorem c4_sequence_passthrough (sdef : WorkflowDef) (req : Request)
    (d : Nat → StepResult)
    (hw : ∃ cfg, createWreck req sdef.timeout = .ok cfg)
    (hne : sdef.nodes ≠ [])
    (hall : ∀ i, i < sdef.nodes.length →
      ∃ r, d i = .response r ∧ r.statusCode = 200) :
    ∃ r, d (sdef.nodes.length - 1) = .response r ∧ r.statusCode = 200 ∧
      (webtaskSequence sdef req d).1 =
        .wrote { statusCode := r.statusCode, headers := r.headers,
                 body := .stream r.body } ∧
      (webtaskSequence sdef req d).2.length = sdef.nodes.length := by
  obtain ⟨cfg, hcfg⟩ := hw
  have hall0 : ∀ i, i < sdef.nodes.length →
      ∃ r, d (0 + i) = .response r ∧ r.statusCode = 200 := by
    intro i hi
    simpa using hall i hi
  have hrun := seqSteps_all200 req d sdef.nodes 0 req.headers hall0
  rcases hseq : seqSteps req d sdef.nodes 0 req.headers with ⟨sreqs, out⟩
  rw [hseq] at hrun
  obtain ⟨hlen, hsome⟩ := hrun
  obtain ⟨r, hr, hrs, hout⟩ := hsome hne
  simp only at hlen hout
  subst hout
  refine ⟨r, by simpa using hr, hrs, ?_, ?_⟩
  · simp [webtaskSequence, hcfg, hseq]
  · simp [webtaskSequence, hcfg, hseq, hlen]

/-- Witness for C4: a two-node sequence where both steps answer 200 and
the caller receives the second response verbatim. -/
theorem c4_sequence_passthrough_witness :
    ∃ r, c4d (c4def.nodes.length - 1) = .response r ∧ r.statusCode = 200 ∧
      (webtaskSequence c4def c4req c4d).1 =
        .wrote { statusCode := r.statusCode, headers := r.headers,
                 body := .stream r.body } ∧
      (webtaskSequence c4def c4req c4d).2.length = c4def.nodes.length :=
  c4_sequence_passthrough c4def c4req c4d ⟨_, rfl⟩ (by decide)
    (fun i hi => by
      have hi2 : i < 2 := hi
      interval_cases i
      · exact ⟨_, rfl, rfl⟩
      · exact ⟨_, rfl, rfl⟩)

/-- C10: in a fan-out execution whose k-th node call reports a
transport-level error (the earlier calls completing), the executor
writes a single error response whose status code and payload come from
that one error alone, and the response is independent of the outcomes
of the remaining nodes — no per-node aggregate array is produced. -/
theorem c10_fanout_transport_error (sdef : WorkflowDef) (req : Request)
    (d : Nat → StepResult) (k : Nat) (e : BoomError)
    (hw : ∃ cfg, createWreck req sdef.timeout = .ok cfg)
    (hk : k < sdef.nodes.length)
    (hprev : ∀ i, i < k → ∃ r, d i = .response r)
    (htr : d k = .transport e) :
    (webtaskFanout sdef req d).1 = .wrote (boomResponse e) ∧
    (boomResponse e).statusCode = e.output.statusCode ∧
    (boomResponse e).body = .json e.output.payload ∧
    ∀ d2 : Nat → StepResult, (∀ i, i ≤ k → d2 i = d i) →
      (webtaskFanout sdef req d2).1 = .wrote (boomResponse e) := by
  obtain ⟨cfg, hcfg⟩ := hw
  have hcol : fanoutCollect d sdef.nodes 0 = .error e := by
    apply fanoutCollect_err d e sdef.nodes 0 k hk
    · intro i hi
      simpa using hprev i hi
    · simpa using htr
  refine ⟨by simp [webtaskFanout, hcfg, hcol], rfl, rfl, ?_⟩
  intro d2 hag
  have hcol2 : fanoutCollect d2 sdef.nodes 0 = .error e := by
    apply fanoutCollect_err d2 e sdef.nodes 0 k hk
    · intro i hi
      obtain ⟨r, hr⟩ := hprev i hi
      refine ⟨r, ?_⟩
      rw [Nat.zero_add, hag i (by omega)]
      exact hr
    · rw [Nat.zero_add, hag k (by omega)]
      exact htr
  simp [webtaskFanout, hcfg, hcol2]

/-- Witness for C10: a two-node fan-out whose second node fails at the
transport level while the first completes. -/
theorem c10_fanout_transport_error_witness :
    (webtaskFanout c10def c10req c10d).1 = .wrote (boomResponse c10err) ∧
    (boomResponse c10err).statusCode = c10err.output.statusCode ∧
    (boomResponse c10err).body = .json c10err.output.payload ∧
    ∀ d2 : Nat → StepResult, (∀ i, i ≤ 1 → d2 i = c10d i) →
      (webtaskFanout c10def c10req d2).1 = .wrote (boomResponse c10err) :=
  c10_fanout_transport_error c10def c10req c10d 1 c10err
    ⟨_, rfl⟩ (by decide)
    (fun i hi => by
      have hi2 : i < 1 := hi
      interval_cases i
      exact ⟨_, rfl⟩)
    rfl

/-- C6 (amended): with a recognized addressing mode, a fan-out
execution always writes a response, and a sequence execution over at
least one node always writes a response; with an unrecognized
addressing mode, both executors throw the fatal
`Unexpected url format` error before dispatching any downstream call
(and so no response is written). -/
theorem c6_always_writes :
    (∀ (sdef : WorkflowDef) (req : Request) (d : Nat → StepResult),
      (∃ cfg, createWreck req sdef.timeout = .ok cfg) →
      ∃ w, (webtaskFanout sdef req d).1 = .wrote w) ∧
    (∀ (sdef : WorkflowDef) (req : Request) (d : Nat → StepResult),
      (∃ cfg, createWreck req sdef.timeout = .ok cfg) → sdef.nodes ≠ [] →
      ∃ w, (webtaskSequence sdef req d).1 = .wrote w) ∧
    (∀ (sdef : WorkflowDef) (req : Request) (d : Nat → StepResult),
      req.xwt.urlFormat ≠ 1 → req.xwt.urlFormat ≠ 2 → req.xwt.urlFormat ≠ 3 →
      webtaskFanout sdef req d =
        (.threw ("Unexpected url format: " ++ toString req.xwt.urlFormat), []) ∧
      webtaskSequence sdef req d =
        (.threw ("Unexpected url format: " ++ toString req.xwt.urlFormat), [])) := by
  refine ⟨?_, ?_, ?_⟩
  · intro sdef req d hw
    obtain ⟨cfg, hcfg⟩ := hw
    rcases hcol : fanoutCollect d sdef.nodes 0 with e | rs
    · exact ⟨boomResponse e, by simp [webtaskFanout, hcfg, hcol]⟩
    · exact ⟨{ statusCode := (fanoutReduce rs).1,
               headers := [("Content-type", "application/json")],
               body := .json (.arr (fanoutReduce rs).2) },
        by simp [webtaskFanout, hcfg, hcol]⟩
  · intro sdef req d hw hne
    obtain ⟨cfg, hcfg⟩ := hw
    rcases hnodes : sdef.nodes with _ | ⟨node, rest⟩
    · exact absurd hnodes hne
    · rcases hseq : seqSteps req d (node :: rest) 0 req.headers with ⟨sreqs, out⟩
      have hnn := seqSteps_cons_ne_none req d node rest 0 req.headers
      rw [hseq] at hnn
      match out, hnn with
      | .error e, _ =>
        exact ⟨boomResponse e, by simp [webtaskSequence, hcfg, hnodes, hseq]⟩
      | .ok (some r), _ =>
        exact ⟨{ statusCode := r.statusCode, headers := r.headers,
                 body := .stream r.body },
          by simp [webtaskSequence, hcfg, hnodes, hseq]⟩
      | .ok none, hnn =>
        exact (hnn rfl).elim
  · intro sdef req d h1 h2 h3
    have hcw := createWreck_unrecognized req sdef.timeout h1 h2 h3
    constructor
    · simp [webtaskFanout, hcw]
    · simp [webtaskSequence, hcw]

/-- Counterexample to C6 as stated: with the unrecognized addressing
mode 0 the executor throws instead of writing — there is an execution
path that terminates without any HTTP response being written (though,
as the claim also says, no downstream call is made). -/
theorem c6_counterexample :
    webtaskSequence c6xDef c6xReq c6xD = (.threw "Unexpected url format: 0", []) ∧
    (∀ w, (webtaskSequence c6xDef c6xReq c6xD).1 = .wrote w → False) ∧
    webtaskFanout c6xDef c6xReq c6xD = (.threw "Unexpected url format: 0", []) := by
  refine ⟨rfl, ?_, rfl⟩
  intro w h
  have hthrew : (webtaskSequence c6xDef c6xReq c6xD).1 =
      .threw "Unexpected url format: 0" := rfl
  rw [hthrew] at h
  exact ExecOutcome.noConfusion h

/-- Witness for the amended C6 at concrete instances of its three
parts. -/
theorem c6_always_writes_witness :
    (∃ w, (webtaskFanout c1xDef c1xReq c1xD).1 = .wrote w) ∧
    (∃ w, (webtaskSequence c4def c4req c4d).1 = .wrote w) ∧
    (webtaskFanout c6xDef c6xReq c6xD =
      (.threw ("Unexpected url format: " ++ toString c6xReq.xwt.urlFormat), []) ∧
     webtaskSequence c6xDef c6xReq c6xD =
      (.threw ("Unexpected url format: " ++ toString c6xReq.xwt.urlFormat), [])) :=
  ⟨c6_always_writes.1 c1xDef c1xReq c1xD ⟨_, rfl⟩,
   c6_always_writes.2.1 c4def c4req c4d ⟨_, rfl⟩ (by decide),
   c6_always_writes.2.2 c6xDef c6xReq c6xD (by decide) (by decide) (by decide)⟩

end WebtaskWorkflow
